import Mathlib

/-!
Shallow embedding of the interop marshalling layer of
`RS_ScriptClient/connect/connect_cpython.py`: the numeric buffer converter
(`numpyify` / `arrayify`), the scalar converter (`systemify`), the generic
value normalizer (`pyobjify` / `clrify`), the marker containers
(`array_list`, `sorted_dict`) and the proxy types (`PyScriptObject`,
`PyScriptObjectCollection`, `PyScriptMethod`).

Machine values are modelled at the byte level: an array carries its raw
byte buffer as a `List Nat` (each entry one byte's bit pattern), so that
"bit-identical" round-trip statements are about the actual bytes moved by
`ctypes.memmove`.  External .NET collaborators (`System.Convert.ChangeType`,
the remote `GetMember` / `Invoke` calls, the remote collection indexer) are
parameters of the definitions that use them.
-/

namespace RSClient

/-- The .NET element / scalar types the marshalling layer can meet:
the eleven numeric types named in the dispatch tables of `numpyify`,
`arrayify` and `systemify`, plus `System.String`, `System.Object` and an
`other` case for unrelated .NET types (`System.DateTime`, …). -/
inductive NetType where
  | boolean
  | single
  | double
  | sbyte
  | int16
  | int32
  | int64
  | byte
  | uint16
  | uint32
  | uint64
  | string
  | object
  | other (fullName : String)
  deriving DecidableEq, Repr

/-- `System.Type.FullName` of a `NetType`. -/
def NetType.fullName : NetType → String
  | .boolean => "System.Boolean"
  | .single => "System.Single"
  | .double => "System.Double"
  | .sbyte => "System.SByte"
  | .int16 => "System.Int16"
  | .int32 => "System.Int32"
  | .int64 => "System.Int64"
  | .byte => "System.Byte"
  | .uint16 => "System.UInt16"
  | .uint32 => "System.UInt32"
  | .uint64 => "System.UInt64"
  | .string => "System.String"
  | .object => "System.Object"
  | .other n => n

/-- Size in bytes of one element of a .NET numeric type (used by the pinned
raw byte copy).  Non-numeric types never reach the copy; for them we use the
reference size 8. -/
def NetType.itemsize : NetType → Nat
  | .boolean => 1
  | .single => 4
  | .double => 8
  | .sbyte => 1
  | .int16 => 2
  | .int32 => 4
  | .int64 => 8
  | .byte => 1
  | .uint16 => 2
  | .uint32 => 4
  | .uint64 => 8
  | .string => 8
  | .object => 8
  | .other _ => 8

/-- `a.IsAssignableFrom(b)` for the types of `NetType`: true when an
instance of `b` can be assigned to a variable of type `a`, i.e. `a = b` or
`a` is `System.Object` (the base class of every type in the enumeration).
The eleven numeric types and `System.String` are sealed and unrelated to
each other, and `other` covers unrelated concrete classes. -/
def NetType.isAssignableFrom (a b : NetType) : Bool :=
  a == b || a == .object

/-- The numpy scalar / dtype kinds the marshalling layer can meet: the
eleven dtypes of the dispatch tables plus unsupported dtypes
(`float16`, `complex64`, and an `other` case). -/
inductive NpType where
  | bool_
  | float32
  | float64
  | int8
  | int16
  | int32
  | int64
  | uint8
  | uint16
  | uint32
  | uint64
  | float16
  | complex64
  | other (name : String)
  deriving DecidableEq, Repr

/-- `type(x).__name__` for a numpy scalar of this kind (also the dtype
name interpolated by `arrayify`'s error message). -/
def NpType.name : NpType → String
  | .bool_ => "bool_"
  | .float32 => "float32"
  | .float64 => "float64"
  | .int8 => "int8"
  | .int16 => "int16"
  | .int32 => "int32"
  | .int64 => "int64"
  | .uint8 => "uint8"
  | .uint16 => "uint16"
  | .uint32 => "uint32"
  | .uint64 => "uint64"
  | .float16 => "float16"
  | .complex64 => "complex64"
  | .other n => n

/-- `dtype.itemsize` for a numpy dtype. -/
def NpType.itemsize : NpType → Nat
  | .bool_ => 1
  | .float32 => 4
  | .float64 => 8
  | .int8 => 1
  | .int16 => 2
  | .int32 => 4
  | .int64 => 8
  | .uint8 => 1
  | .uint16 => 2
  | .uint32 => 4
  | .uint64 => 8
  | .float16 => 2
  | .complex64 => 8
  | .other _ => 8

/-- A .NET `System.Array` with numeric-style layout: element type, shape
(`GetLength i` for `i < Rank`), and the raw bytes of its pinned memory. -/
structure NetArray where
  elementType : NetType
  shape : List Nat
  bytes : List Nat
  deriving DecidableEq, Repr

/-- A numpy `ndarray`: dtype, shape, and the raw bytes of its (contiguous)
data buffer. -/
structure NpArray where
  dtype : NpType
  shape : List Nat
  bytes : List Nat
  deriving DecidableEq, Repr

/-- Number of elements of an array of this shape (`np.prod(shape)`,
`System.Array.Length`). -/
def extent (shape : List Nat) : Nat := shape.prod

/-- `ctypes.memmove(dst, src, n)`: overwrite the first `n` bytes of the
destination buffer with the first `n` bytes of the source buffer. -/
def memmove (dst src : List Nat) (n : Nat) : List Nat :=
  src.take n ++ dst.drop n

/-- The `if/elif` chain of `numpyify` choosing the numpy dtype from the
.NET element type via `elementType.IsAssignableFrom(...)`, in source
order; `none` is the final `else` that raises. -/
def npTypeOfNet (et : NetType) : Option NpType :=
  if et.isAssignableFrom .boolean then some .bool_
  else if et.isAssignableFrom .single then some .float32
  else if et.isAssignableFrom .double then some .float64
  else if et.isAssignableFrom .sbyte then some .int8
  else if et.isAssignableFrom .int16 then some .int16
  else if et.isAssignableFrom .int32 then some .int32
  else if et.isAssignableFrom .int64 then some .int64
  else if et.isAssignableFrom .byte then some .uint8
  else if et.isAssignableFrom .uint16 then some .uint16
  else if et.isAssignableFrom .uint32 then some .uint32
  else if et.isAssignableFrom .uint64 then some .uint64
  else none

/-- The `if/elif` chain of `arrayify` choosing the .NET element type from
`src.dtype` via `==` comparisons, in source order; `none` is the final
`else` that raises. -/
def netTypeOfNp (dt : NpType) : Option NetType :=
  if dt == .bool_ then some .boolean
  else if dt == .float32 then some .single
  else if dt == .float64 then some .double
  else if dt == .int8 then some .sbyte
  else if dt == .int16 then some .int16
  else if dt == .int32 then some .int32
  else if dt == .int64 then some .int64
  else if dt == .uint8 then some .byte
  else if dt == .uint16 then some .uint16
  else if dt == .uint32 then some .uint32
  else if dt == .uint64 then some .uint64
  else none

/-- Python exceptions raised inside the marshalling layer.  `remote` is a
.NET `System.Exception` re-raised unchanged; `copyError` stands for an
exception raised by the raw byte copy itself (used by the pin-tracing
variants of the converters). -/
structure RemoteExn where
  message : String
  code : Nat
  deriving DecidableEq, Repr

inductive PyErr where
  | typeError (msg : String)
  | valueError (msg : String)
  | attributeError (msg : String)
  | exn (msg : String)
  | remote (e : RemoteExn)
  | copyError
  deriving DecidableEq, Repr

/-- Python `s.startswith(pre)` (respectively .NET `String.StartsWith`),
as a character-list prefix test. -/
def strStartswith (s pre : String) : Bool := pre.data.isPrefixOf s.data

/-- `np.ascontiguousarray`: the model's byte buffer is already the logical
contiguous element sequence, so this is the identity. -/
def ascontiguousarray (a : NpArray) : NpArray := a

/-- `numpyify(src)`: convert a numeric .NET array to a numpy array.
Dispatch the dtype from the element type, allocate `np.zeros(shape, dtype)`
and `ctypes.memmove` `dst.nbytes` bytes out of the pinned .NET memory. -/
def numpyify (src : NetArray) : Except PyErr NpArray :=
  match npTypeOfNet src.elementType with
  | none =>
      .error (.typeError
        ("Cannot make numpy arrays from .NET array type " ++
          src.elementType.fullName))
  | some npType =>
      let shape := src.shape
      let nbytes := extent shape * npType.itemsize
      let dst := List.replicate nbytes 0
      .ok ⟨npType, shape, memmove dst src.bytes nbytes⟩

/-- `arrayify(src)`: convert a numpy array to a numeric .NET array.
Dispatch the element type from `src.dtype`, allocate
`System.Array.CreateInstance(netType, src.shape)` (zero-initialized),
force `src` contiguous and `ctypes.memmove` `src.nbytes` bytes into the
pinned .NET memory. -/
def arrayify (src : NpArray) : Except PyErr NetArray :=
  match netTypeOfNp src.dtype with
  | none =>
      .error (.typeError ("Cannot make .NET arrays from numpy type " ++
        src.dtype.name))
  | some netType =>
      let dst := List.replicate (extent src.shape * netType.itemsize) 0
      let src' := ascontiguousarray src
      let nbytes := extent src'.shape * src'.dtype.itemsize
      .ok ⟨netType, src.shape, memmove dst src'.bytes nbytes⟩

/-- The element types accepted by `numpyify`'s table as the spec intends it
(the numeric types listed in the spec's dtype table). -/
def NetType.supported : NetType → Bool
  | .boolean | .single | .double | .sbyte | .int16 | .int32 | .int64
  | .byte | .uint16 | .uint32 | .uint64 => true
  | _ => false

/-- The dtypes accepted by `arrayify`'s table. -/
def NpType.supported : NpType → Bool
  | .bool_ | .float32 | .float64 | .int8 | .int16 | .int32 | .int64
  | .uint8 | .uint16 | .uint32 | .uint64 => true
  | _ => false

/-- The universe of Python-visible values the normalizer dispatches on.
The first block are host-native Python values (including the marker
containers, numpy values, and the three proxy wrapper classes); the second
block are .NET values as seen through pythonnet.  Handles (`h : Nat`)
identify remote objects; floats and boxed numerics are carried as their
bit patterns, since the marshalling layer never computes with them. -/
inductive Value where
  | pyNone
  | pyBool (b : Bool)
  | pyInt (n : Int)
  | pyFloat (bits : Nat)
  | pyStr (s : String)
  | pyList (xs : List Value)
  | pyArrayList (xs : List Value)
  | pyDict (kvs : List (Value × Value))
  | pySortedDict (kt : NetType) (kvs : List (Value × Value))
  | npArr (a : NpArray)
  | npScalar (t : NpType) (bits : Nat)
  | proxyObj (h : Nat)
  | proxyColl (h : Nat)
  | proxyMethod (h : Nat)
  | clrObj (h : Nat)
  | clrColl (h : Nat)
  | clrMethod (h : Nat)
  | netArr (a : NetArray)
  | netStrArr (ss : List String)
  | netScriptObjArr (hs : List Nat)
  | netJaggedArr (xs : List Value)
  | netObjArr (xs : List Value)
  | clrExpando (kvs : List (String × Value))
  | clrList (xs : List Value)
  | clrDict (kvs : List (Value × Value))
  | clrSortedDict (kt : NetType) (kvs : List (Value × Value))
  | clrBoxed (t : NetType) (bits : Nat)
  | clrOpaque (name : String) (h : Nat)
  deriving Repr

/-- `isinstance(x, System.Object) or isinstance(x, System.ValueType)`:
true exactly for the .NET-side constructors. -/
def Value.isClr : Value → Bool
  | .clrObj _ | .clrColl _ | .clrMethod _ | .netArr _ | .netStrArr _
  | .netScriptObjArr _ | .netJaggedArr _ | .netObjArr _ | .clrExpando _
  | .clrList _ | .clrDict _ | .clrSortedDict _ _ | .clrBoxed _ _
  | .clrOpaque _ _ => true
  | _ => false

mutual

/-- Python `==` on these values: componentwise comparison of like-kinded
values (cross-kind comparisons evaluate to `False`). -/
def pyEq : Value → Value → Bool
  | .pyNone, .pyNone => true
  | .pyBool a, .pyBool b => a == b
  | .pyInt a, .pyInt b => a == b
  | .pyFloat a, .pyFloat b => a == b
  | .pyStr a, .pyStr b => a == b
  | .pyList a, .pyList b => pyEqList a b
  | .pyArrayList a, .pyArrayList b => pyEqList a b
  | .pyDict a, .pyDict b => pyEqPairs a b
  | .pySortedDict t a, .pySortedDict u b => t == u && pyEqPairs a b
  | .npArr a, .npArr b => a == b
  | .npScalar t a, .npScalar u b => t == u && a == b
  | .proxyObj a, .proxyObj b => a == b
  | .proxyColl a, .proxyColl b => a == b
  | .proxyMethod a, .proxyMethod b => a == b
  | .clrObj a, .clrObj b => a == b
  | .clrColl a, .clrColl b => a == b
  | .clrMethod a, .clrMethod b => a == b
  | .netArr a, .netArr b => a == b
  | .netStrArr a, .netStrArr b => a == b
  | .netScriptObjArr a, .netScriptObjArr b => a == b
  | .netJaggedArr a, .netJaggedArr b => pyEqList a b
  | .netObjArr a, .netObjArr b => pyEqList a b
  | .clrExpando a, .clrExpando b => pyEqStrPairs a b
  | .clrList a, .clrList b => pyEqList a b
  | .clrDict a, .clrDict b => pyEqPairs a b
  | .clrSortedDict t a, .clrSortedDict u b => t == u && pyEqPairs a b
  | .clrBoxed t a, .clrBoxed u b => t == u && a == b
  | .clrOpaque n a, .clrOpaque m b => n == m && a == b
  | _, _ => false
termination_by structural x => x

def pyEqList : List Value → List Value → Bool
  | [], [] => true
  | x :: xs, y :: ys => pyEq x y && pyEqList xs ys
  | _, _ => false

def pyEqPairs : List (Value × Value) → List (Value × Value) → Bool
  | [], [] => true
  | (k, v) :: xs, (k', v') :: ys => pyEq k k' && pyEq v v' && pyEqPairs xs ys
  | _, _ => false

def pyEqStrPairs : List (String × Value) → List (String × Value) → Bool
  | [], [] => true
  | (k, v) :: xs, (k', v') :: ys => k == k' && pyEq v v' && pyEqStrPairs xs ys
  | _, _ => false

end

/-- `d[k] = v` on a Python `dict` (insertion-ordered, updating an existing
key in place and keeping the originally stored key object). -/
def dictSet (entries : List (Value × Value)) (k v : Value) :
    List (Value × Value) :=
  match entries with
  | [] => [(k, v)]
  | (k', v') :: rest =>
      if pyEq k' k then (k', v) :: rest else (k', v') :: dictSet rest k v

/-- Build a dict by `d[k] = v` over a pair list in order (the loops of
`pyobjify`'s `Dictionary` / `SortedDictionary` branches and `clrify`'s
dict branches). -/
def mkDict (prs : List (Value × Value)) : List (Value × Value) :=
  prs.foldl (fun acc kv => dictSet acc kv.1 kv.2) []

/-- `systemify(src)`: convert a numpy scalar (kind `t`, bit pattern `bits`)
to the corresponding boxed .NET primitive, following the `isinstance`
chain of the source in order — `np.bool`/`np.bool_` first, then the float
and integer kinds — and raising `Exception("Unhandled numpy type " +
type(src).__name__)` for every other numpy kind. -/
def systemify (t : NpType) (bits : Nat) : Except PyErr Value :=
  if t == .bool_ then .ok (.clrBoxed .boolean bits)
  else if t == .float32 then .ok (.clrBoxed .single bits)
  else if t == .float64 then .ok (.clrBoxed .double bits)
  else if t == .int8 then .ok (.clrBoxed .sbyte bits)
  else if t == .int16 then .ok (.clrBoxed .int16 bits)
  else if t == .int32 then .ok (.clrBoxed .int32 bits)
  else if t == .int64 then .ok (.clrBoxed .int64 bits)
  else if t == .uint8 then .ok (.clrBoxed .byte bits)
  else if t == .uint16 then .ok (.clrBoxed .uint16 bits)
  else if t == .uint32 then .ok (.clrBoxed .uint32 bits)
  else if t == .uint64 then .ok (.clrBoxed .uint64 bits)
  else .error (.exn ("Unhandled numpy type " ++ t.name))

/-- The external collaborator `System.Convert.ChangeType(value, type)`,
used by `sorted_dict.__setitem__` to coerce keys to the declared key
type. It lives outside this repository, so the definitions that use it
take it as a parameter. -/
def ChangeTypeFn := Value → NetType → Except PyErr Value

mutual

/-- `pyobjify(x)`: convert .NET values to Python values, following the
source's `isinstance` / type-name dispatch in order:
Python lists recurse elementwise (a list comprehension, so the result is a
plain list even for an `array_list`); values that are not `System.Object`
or `System.ValueType` are already Python and pass through; script objects,
collections and methods are wrapped in proxies; `System.Array`s dispatch
on their element type (jagged → `array_list` with conversion, `String` or
`Object` element type — both satisfy `elementType.IsAssignableFrom(String)`
— → `array_list` without conversion, `CPythonScriptObject` → plain list of
proxies, otherwise `numpyify`); `ExpandoObject` copies its members into a
dict without recursing; generic `List`/`Dictionary`/`SortedDictionary`
recurse; everything else (e.g. `System.DateTime`) passes through.
`ct` is `System.Convert.ChangeType`, reached via `sorted_dict.__setitem__`
in the `SortedDictionary` branch. -/
def pyobjify (ct : ChangeTypeFn) : Value → Except PyErr Value
  | .pyList xs => do
      let ys ← pyobjifyList ct xs
      .ok (.pyList ys)
  | .pyArrayList xs => do
      let ys ← pyobjifyList ct xs
      .ok (.pyList ys)
  | .clrObj h => .ok (.proxyObj h)
  | .clrColl h => .ok (.proxyColl h)
  | .netJaggedArr xs => do
      let ys ← pyobjifyList ct xs
      .ok (.pyArrayList ys)
  | .netStrArr ss => .ok (.pyArrayList (ss.map .pyStr))
  | .netObjArr xs => .ok (.pyArrayList xs)
  | .netScriptObjArr hs => .ok (.pyList (hs.map .proxyObj))
  | .netArr a => do
      let r ← numpyify a
      .ok (.npArr r)
  | .clrMethod h => .ok (.proxyMethod h)
  | .clrExpando kvs => .ok (.pyDict (kvs.map fun kv => (.pyStr kv.1, kv.2)))
  | .clrList xs => do
      let ys ← pyobjifyList ct xs
      .ok (.pyList ys)
  | .clrDict kvs => do
      let prs ← pyobjifyPairs ct kvs
      .ok (.pyDict (mkDict prs))
  | .clrSortedDict kt kvs => do
      let prs ← pyobjifySortedPairs ct kt kvs
      .ok (.pySortedDict kt (mkDict prs))
  | x => .ok x

def pyobjifyList (ct : ChangeTypeFn) : List Value → Except PyErr (List Value)
  | [] => .ok []
  | x :: xs => do
      let y ← pyobjify ct x
      let ys ← pyobjifyList ct xs
      .ok (y :: ys)

def pyobjifyPairs (ct : ChangeTypeFn) :
    List (Value × Value) → Except PyErr (List (Value × Value))
  | [] => .ok []
  | (k, v) :: rest => do
      let key ← pyobjify ct k
      let value ← pyobjify ct v
      let rest' ← pyobjifyPairs ct rest
      .ok ((key, value) :: rest')

/-- The element loop of `sorted_dict.__init__` converting a remote
`SortedDictionary`: `self[pyobjify(element.Key)] = pyobjify(element.Value)`,
where `sorted_dict.__setitem__` first coerces the key with
`System.Convert.ChangeType(key, self.key_type)`. -/
def pyobjifySortedPairs (ct : ChangeTypeFn) (kt : NetType) :
    List (Value × Value) → Except PyErr (List (Value × Value))
  | [] => .ok []
  | (k, v) :: rest => do
      let key ← pyobjify ct k
      let value ← pyobjify ct v
      let ck ← ct key kt
      let rest' ← pyobjifySortedPairs ct kt rest
      .ok ((ck, value) :: rest')

end

mutual

/-- `clrify(x)`: convert Python values to .NET values, following the
source's `isinstance` dispatch in order: proxies unwrap to their remote
handles; a `sorted_dict` builds a `SortedDictionary[Object, Object]` and a
plain `dict` a `Dictionary[Object, Object]`, recursing on keys and values
(Python evaluates the assigned value before the subscript key, so the
value is converted first); an `array_list` becomes a
`System.Array[System.Object]` with the fast path — empty list, or the
converted first element `==` the unconverted one, skips per-element
conversion; a plain `list` uses the same fast path but stays a Python
list; `np.ndarray` goes through `arrayify` and numpy scalars through
`systemify`; everything else is returned unchanged. -/
def clrify : Value → Except PyErr Value
  | .proxyObj h => .ok (.clrObj h)
  | .proxyColl h => .ok (.clrColl h)
  | .pySortedDict _ kvs => do
      let prs ← clrifyPairs kvs
      .ok (.clrSortedDict .object (mkDict prs))
  | .pyDict kvs => do
      let prs ← clrifyPairs kvs
      .ok (.clrDict (mkDict prs))
  | .pyArrayList [] => .ok (.netObjArr [])
  | .pyArrayList (x0 :: rest) => do
      let c0 ← clrify x0
      if pyEq c0 x0 then
        .ok (.netObjArr (x0 :: rest))
      else do
        let ys ← clrifyList (x0 :: rest)
        .ok (.netObjArr ys)
  | .pyList [] => .ok (.pyList [])
  | .pyList (x0 :: rest) => do
      let c0 ← clrify x0
      if pyEq c0 x0 then
        .ok (.pyList (x0 :: rest))
      else do
        let ys ← clrifyList (x0 :: rest)
        .ok (.pyList ys)
  | .npArr a => do
      let r ← arrayify a
      .ok (.netArr r)
  | .npScalar t bits => systemify t bits
  | x => .ok x

def clrifyList : List Value → Except PyErr (List Value)
  | [] => .ok []
  | x :: xs => do
      let y ← clrify x
      let ys ← clrifyList xs
      .ok (y :: ys)

def clrifyPairs :
    List (Value × Value) → Except PyErr (List (Value × Value))
  | [] => .ok []
  | (k, v) :: rest => do
      let v' ← clrify v
      let k' ← clrify k
      let rest' ← clrifyPairs rest
      .ok ((k', v') :: rest')

end

/-- Python truthiness (`if x:`) for the values that can be passed to
`sorted_dict.__init__`: `None`, `False`, `0`, `""` and empty containers are
falsy; objects (including every .NET object reference) are truthy.  A float
is falsy only on the all-zero bit pattern of `+0.0`. -/
def pyTruthy : Value → Bool
  | .pyNone => false
  | .pyBool b => b
  | .pyInt n => n != 0
  | .pyFloat bits => bits != 0
  | .pyStr s => s != ""
  | .pyList xs => !xs.isEmpty
  | .pyArrayList xs => !xs.isEmpty
  | .pyDict kvs => !kvs.isEmpty
  | .pySortedDict _ kvs => !kvs.isEmpty
  | _ => true

/-- The host-side `sorted_dict` marker container: a dict subclass with a
declared .NET key type. -/
structure SortedDict where
  key_type : NetType
  entries : List (Value × Value)
  deriving Repr

/-- `sorted_dict.__init__(d, key_type)`: a truthy `key_type` together with
a truthy `d` raises
`ValueError("The key_type input argument can only be specified when no
other input arguments are given.")`; a truthy `key_type` alone creates an
empty dict with that key type; otherwise `d` must be a .NET
`SortedDictionary` (anything else raises `TypeError`), whose declared key
type is taken from its first generic argument and whose elements are
inserted via `self[pyobjify(key)] = pyobjify(value)` (each insertion
coercing the key through `System.Convert.ChangeType`). -/
def sortedDictInit (ct : ChangeTypeFn) (d : Option Value)
    (keyType : Option NetType) : Except PyErr SortedDict :=
  match keyType with
  | some kt =>
      if (match d with | none => false | some v => pyTruthy v) then
        .error (.valueError
          ("The key_type input argument can only be specified when no " ++
            "other input arguments are given."))
      else
        .ok ⟨kt, []⟩
  | none =>
      match d with
      | some (.clrSortedDict kt kvs) => do
          let prs ← pyobjifySortedPairs ct kt kvs
          .ok ⟨kt, mkDict prs⟩
      | _ =>
          .error (.typeError
            "The input argument must be a System.Collections.Generic.SortedDictionary.")

/-- `sorted_dict.__setitem__(key, value)`: coerce the key with
`System.Convert.ChangeType(key, self.key_type)`, then insert with
`dict.__setitem__`. -/
def sortedDictSetItem (ct : ChangeTypeFn) (sd : SortedDict) (k v : Value) :
    Except PyErr SortedDict := do
  let converted_key ← ct k sd.key_type
  .ok ⟨sd.key_type, dictSet sd.entries converted_key v⟩

/-- The `TypeError` CPython raises for `dict.__init__(self)` when `self`
is a `list` (the exact message text varies between CPython versions). -/
def dictInitTypeErrorMsg : String :=
  "descriptor '__init__' requires a 'dict' object but received a 'list'"

/-- `array_list.__init__(l, p)`: when `l == None` the constructor calls
`dict.__init__(self)` on an instance that is a `list` subclass, which
raises `TypeError`; otherwise it extends the new list with the elements of
`l`, converting each through `pyobjify` when `p` is true.  `l` is modelled
as the element sequence of the iterable passed in (`none` for absent or
`None`). -/
def arrayListInit (ct : ChangeTypeFn) (l : Option (List Value)) (p : Bool) :
    Except PyErr Value :=
  match l with
  | none => .error (.typeError dictInitTypeErrorMsg)
  | some xs =>
      if p then do
        let ys ← pyobjifyList ct xs
        .ok (.pyArrayList ys)
      else
        .ok (.pyArrayList xs)

/-- The external remote call `handle.GetMember(name)` as consumed by
`PyScriptObject.__getattr__`: a value, or a .NET exception. -/
def GetMemberFn := String → Except RemoteExn Value

/-- `PyScriptObject.__getattr__(name)`: call `GetMember(name)`; on a .NET
exception whose message starts with `"Object has no member"`, re-raise as
`AttributeError` with the same message (so `hasattr` works); re-raise any
other .NET exception unchanged; on success return `pyobjify(x)`. -/
def pyScriptObjectGetattr (gm : GetMemberFn) (ct : ChangeTypeFn)
    (name : String) : Except PyErr Value :=
  match gm name with
  | .error e =>
      if strStartswith e.message "Object has no member" then
        .error (.attributeError e.message)
      else
        .error (.remote e)
  | .ok x => pyobjify ct x

/-- The external remote call `handle.Invoke(keys, vals)` as consumed by
`PyScriptMethod.__call__`. -/
def InvokeFn := List String → List Value → Except RemoteExn Value

/-- `PyScriptMethod.__call__(*args, **kwargs)`: any positional argument
raises `TypeError("Method must be called with named arguments.")` before
anything is sent; otherwise every keyword value is converted with
`clrify` into the parallel values array, the keyword names form the keys
array, and the result of `Invoke(keys, vals)` is passed through
`pyobjify`. -/
def pyScriptMethodCall (inv : InvokeFn) (ct : ChangeTypeFn)
    (args : List Value) (kwargs : List (String × Value)) :
    Except PyErr Value :=
  if args.length > 0 then
    .error (.typeError "Method must be called with named arguments.")
  else do
    let vals ← clrifyList (kwargs.map Prod.snd)
    let keys := kwargs.map Prod.fst
    match inv keys vals with
    | .error e => .error (.remote e)
    | .ok r => pyobjify ct r

/-- The remote `CPythonScriptObjectCollection` as seen by the proxy: its
`Count` and its integer indexer (the view the default iterator uses; the
remote indexer also accepts string keys, not needed here). -/
structure RemoteCollection where
  count : Nat
  getIdx : Nat → Value

/-- `PyScriptObjectCollection`: host-side wrapper keeping the remote
collection as its `_scriptObjectCollection` member. -/
structure PyCollection where
  rc : RemoteCollection

/-- `PyScriptObjectCollection.__len__` (= the remote `Count`). -/
def collLen (c : PyCollection) : Nat := c.rc.count

/-- `PyScriptObjectCollection.__getitem__(key)` for an integer key:
`pyobjify(self._scriptObjectCollection[key])`. -/
def collGetItem (ct : ChangeTypeFn) (c : PyCollection) (i : Nat) :
    Except PyErr Value :=
  pyobjify ct (c.rc.getIdx i)

/-- `PyScriptValueIterator`: the collection being iterated and the current
index. -/
structure PyScriptValueIterator where
  collection : PyCollection
  index : Nat

/-- `PyScriptObjectCollection.__iter__`: a fresh iterator at index 0. -/
def collIter (c : PyCollection) : PyScriptValueIterator := ⟨c, 0⟩

/-- `PyScriptValueIterator.__next__`: `StopIteration` (modelled as
`ok none`) once `index >= len(collection)`; otherwise yield
`collection[index]` and advance the index. -/
def iterNext (ct : ChangeTypeFn) (it : PyScriptValueIterator) :
    Except PyErr (Option (Value × PyScriptValueIterator)) :=
  if collLen it.collection ≤ it.index then
    .ok none
  else do
    let ret ← collGetItem ct it.collection it.index
    .ok (some (ret, ⟨it.collection, it.index + 1⟩))

/-- Drive an iterator to exhaustion (Python's `for` loop over a
`PyScriptValueIterator`), collecting the yielded values. -/
def iterRun (ct : ChangeTypeFn) (it : PyScriptValueIterator) :
    Except PyErr (List Value) :=
  if h : it.index < collLen it.collection then do
    let ret ← collGetItem ct it.collection it.index
    let rest ← iterRun ct ⟨it.collection, it.index + 1⟩
    .ok (ret :: rest)
  else
    .ok []
termination_by collLen it.collection - it.index

/-- Pin lifecycle events of the numeric buffer converters
(`GCHandle.Alloc(..., GCHandleType.Pinned)` and `GCHandle.Free`). -/
inductive PinEvent where
  | alloc
  | free
  deriving DecidableEq, Repr

/-- `numpyify` instrumented with its pin lifecycle: `copyOk` says whether
the `ctypes.memmove` between the buffers succeeds or raises, and the
second component records the pin events in order.  The `try/finally` of
the source frees the pin on both the success and the exception path. -/
def numpyifyPinTrace (copyOk : Bool) (src : NetArray) :
    Except PyErr NpArray × List PinEvent :=
  match npTypeOfNet src.elementType with
  | none =>
      (.error (.typeError
        ("Cannot make numpy arrays from .NET array type " ++
          src.elementType.fullName)), [])
  | some npType =>
      let shape := src.shape
      let nbytes := extent shape * npType.itemsize
      let dst := List.replicate nbytes 0
      if copyOk then
        (.ok ⟨npType, shape, memmove dst src.bytes nbytes⟩, [.alloc, .free])
      else
        (.error .copyError, [.alloc, .free])

/-- `arrayify` instrumented with its pin lifecycle, like
`numpyifyPinTrace`. -/
def arrayifyPinTrace (copyOk : Bool) (src : NpArray) :
    Except PyErr NetArray × List PinEvent :=
  match netTypeOfNp src.dtype with
  | none =>
      (.error (.typeError ("Cannot make .NET arrays from numpy type " ++
        src.dtype.name)), [])
  | some netType =>
      let dst := List.replicate (extent src.shape * netType.itemsize) 0
      let src' := ascontiguousarray src
      let nbytes := extent src'.shape * src'.dtype.itemsize
      if copyOk then
        (.ok ⟨netType, src.shape, memmove dst src'.bytes nbytes⟩,
          [.alloc, .free])
      else
        (.error .copyError, [.alloc, .free])

/-- Host-native primitive values: the kinds `clrify` returns unchanged
through its final `else` branch (`None`, booleans, integers, floats,
strings). -/
def hostPrim : Value → Bool
  | .pyNone | .pyBool _ | .pyInt _ | .pyFloat _ | .pyStr _ => true
  | _ => false

/-- The per-element slow path of `clrify`'s `array_list` branch (its
`else` arm, forced): convert every element, then bulk-wrap. -/
def arrayListSlowPath (xs : List Value) : Except PyErr Value := do
  let ys ← clrifyList xs
  .ok (.netObjArr ys)

/-! ## Concrete collaborator instances used by the witnesses -/

/-- A trivial `System.Convert.ChangeType` instance. -/
def ctId : ChangeTypeFn := fun v _ => .ok v

/-- A `ChangeType` instance that coerces every key to a boxed value of the
requested type. -/
def ctBox : ChangeTypeFn := fun _ t => .ok (.clrBoxed t 0)

/-- A remote handle with one member, `"Color"`; every other member-get
raises the remote `"Object has no member: <name>"` exception. -/
def gmOneMember : GetMemberFn := fun name =>
  if name = "Color" then .ok (.clrOpaque "System.Drawing.Color" 5)
  else .error ⟨"Object has no member: " ++ name, 3⟩

/-- A remote method whose invocation returns a fixed script object. -/
def invConst : InvokeFn := fun _ _ => .ok (.clrObj 9)

/-! ## Theorems -/

/-- Sanity: on a successful copy the traced converter computes exactly
`numpyify`. -/
theorem numpyifyPinTrace_fst (src : NetArray) :
    (numpyifyPinTrace true src).1 = numpyify src := by
  unfold numpyifyPinTrace numpyify
  cases npTypeOfNet src.elementType <;> rfl

/-- Sanity: on a successful copy the traced converter computes exactly
`arrayify`. -/
theorem arrayifyPinTrace_fst (src : NpArray) :
    (arrayifyPinTrace true src).1 = arrayify src := by
  unfold arrayifyPinTrace arrayify
  cases netTypeOfNp src.dtype <;> rfl

/-! ## The dtype table as a bijection on the supported types -/

/-- Every supported .NET element type has a numpy dtype of the same item
size, and the two dispatch tables invert each other there. -/
theorem netTable (t : NetType) (ht : t.supported = true) :
    ∃ u : NpType, npTypeOfNet t = some u ∧ netTypeOfNp u = some t ∧
      u.itemsize = t.itemsize := by
  cases t <;> simp_all [NetType.supported] <;>
    first
    | exact ⟨.bool_, by decide⟩
    | exact ⟨.float32, by decide⟩
    | exact ⟨.float64, by decide⟩
    | exact ⟨.int8, by decide⟩
    | exact ⟨.int16, by decide⟩
    | exact ⟨.int32, by decide⟩
    | exact ⟨.int64, by decide⟩
    | exact ⟨.uint8, by decide⟩
    | exact ⟨.uint16, by decide⟩
    | exact ⟨.uint32, by decide⟩
    | exact ⟨.uint64, by decide⟩

/-- Every supported numpy dtype has a .NET element type of the same item
size, and the two dispatch tables invert each other there. -/
theorem npTable (u : NpType) (hu : u.supported = true) :
    ∃ t : NetType, netTypeOfNp u = some t ∧ npTypeOfNet t = some u ∧
      t.itemsize = u.itemsize := by
  cases u <;> simp_all [NpType.supported] <;>
    first
    | exact ⟨.boolean, by decide⟩
    | exact ⟨.single, by decide⟩
    | exact ⟨.double, by decide⟩
    | exact ⟨.sbyte, by decide⟩
    | exact ⟨.int16, by decide⟩
    | exact ⟨.int32, by decide⟩
    | exact ⟨.int64, by decide⟩
    | exact ⟨.byte, by decide⟩
    | exact ⟨.uint16, by decide⟩
    | exact ⟨.uint32, by decide⟩
    | exact ⟨.uint64, by decide⟩

/-- On a well-formed array whose element type dispatches to dtype `u` of
the same item size, `numpyify` copies shape and bytes unchanged. -/
theorem numpyify_eq (x : NetArray) (u : NpType)
    (hu : npTypeOfNet x.elementType = some u)
    (hsize : u.itemsize = x.elementType.itemsize)
    (hwf : x.bytes.length = extent x.shape * x.elementType.itemsize) :
    numpyify x = .ok ⟨u, x.shape, x.bytes⟩ := by
  have hn : extent x.shape * u.itemsize = x.bytes.length := by
    rw [hsize, hwf]
  unfold numpyify
  rw [hu]
  simp [memmove, hn, List.drop_replicate]

/-- On a well-formed array whose dtype dispatches to element type `t` of
the same item size, `arrayify` copies shape and bytes unchanged. -/
theorem arrayify_eq (y : NpArray) (t : NetType)
    (ht : netTypeOfNp y.dtype = some t)
    (hsize : t.itemsize = y.dtype.itemsize)
    (hwf : y.bytes.length = extent y.shape * y.dtype.itemsize) :
    arrayify y = .ok ⟨t, y.shape, y.bytes⟩ := by
  have hn : extent y.shape * y.dtype.itemsize = y.bytes.length := hwf.symm
  unfold arrayify
  rw [ht]
  simp [ascontiguousarray, memmove, hn, hsize, List.drop_replicate]

/-- C1: for every well-formed array of rank 1–3 (zero extents allowed)
whose element type is in the supported dtype table, converting across the
boundary and back — `arrayify ∘ numpyify` on a remote array, and
symmetrically `numpyify ∘ arrayify` on a native buffer — reproduces the
input exactly: same shape, same element type, bit-identical bytes.
(The fixed table has eleven entries: boolean, four signed and four
unsigned integer widths, and two float widths.) -/
theorem numeric_buffer_roundtrip
    (x : NetArray) (hx : x.elementType.supported = true)
    (hxrank : 1 ≤ x.shape.length ∧ x.shape.length ≤ 3)
    (hxwf : x.bytes.length = extent x.shape * x.elementType.itemsize)
    (y : NpArray) (hy : y.dtype.supported = true)
    (hyrank : 1 ≤ y.shape.length ∧ y.shape.length ≤ 3)
    (hywf : y.bytes.length = extent y.shape * y.dtype.itemsize) :
    (numpyify x).bind arrayify = .ok x ∧
    (arrayify y).bind numpyify = .ok y := by
  obtain ⟨u, hu1, hu2, hu3⟩ := netTable x.elementType hx
  obtain ⟨t, ht1, ht2, ht3⟩ := npTable y.dtype hy
  constructor
  · rw [numpyify_eq x u hu1 hu3 hxwf]
    show arrayify ⟨u, x.shape, x.bytes⟩ = .ok x
    rw [arrayify_eq ⟨u, x.shape, x.bytes⟩ x.elementType hu2 hu3.symm
      (by simpa [hu3] using hxwf)]
  · rw [arrayify_eq y t ht1 ht3 hywf]
    show numpyify ⟨t, y.shape, y.bytes⟩ = .ok y
    rw [numpyify_eq ⟨t, y.shape, y.bytes⟩ y.dtype ht2 ht3.symm
      (by simpa [ht3] using hywf)]

/-- Witness for C1: a rank-2 `Int16` remote array with concrete bytes, and
a rank-1 zero-extent `float64` native buffer, both round-trip exactly. -/
theorem numeric_buffer_roundtrip_witness :
    (numpyify ⟨.int16, [2, 1], [1, 2, 3, 4]⟩).bind arrayify =
      .ok ⟨.int16, [2, 1], [1, 2, 3, 4]⟩ ∧
    (arrayify ⟨.float64, [0], []⟩).bind numpyify = .ok ⟨.float64, [0], []⟩ :=
  numeric_buffer_roundtrip ⟨.int16, [2, 1], [1, 2, 3, 4]⟩ (by decide)
    (by decide) (by decide) ⟨.float64, [0], []⟩ (by decide) (by decide)
    (by decide)

/-- C6 (divergence evaluation): `arrayify` does reject an unsupported
native dtype (`complex64`), and `numpyify` does reject a `String[]` remote
array; but a `System.Object[]` remote array — whose element type is not in
the table either — is not rejected: because the source tests
`elementType.IsAssignableFrom(Boolean)` (with `System.Object` as
`elementType` this is true), `numpyify` silently reinterprets the object
array as a `np.bool_` array instead of raising. -/
theorem unsupported_dtype_divergence :
    NetType.supported .object = false ∧
    npTypeOfNet .object = some .bool_ ∧
    numpyify ⟨.object, [2], List.replicate 16 0⟩ =
      .ok ⟨.bool_, [2], [0, 0]⟩ ∧
    arrayify ⟨.complex64, [2], List.replicate 16 0⟩ =
      .error (.typeError
        ("Cannot make .NET arrays from numpy type " ++ "complex64")) ∧
    numpyify ⟨.string, [2], List.replicate 16 0⟩ =
      .error (.typeError
        ("Cannot make numpy arrays from .NET array type " ++
          "System.String")) := by
  refine ⟨rfl, rfl, rfl, rfl, rfl⟩

/-- C7: in both conversion directions the pinned region is released on
every exit path: whether the raw copy succeeds or raises (`copyOk`), the
pin trace is empty (the dtype dispatch raised before pinning) or exactly
`[alloc, free]`; and whenever the element type dispatches (so the pin is
actually acquired), the trace is exactly `[alloc, free]`. -/
theorem pin_released_on_every_path (copyOk : Bool) (x : NetArray)
    (y : NpArray) :
    ((numpyifyPinTrace copyOk x).2 = [] ∨
      (numpyifyPinTrace copyOk x).2 = [.alloc, .free]) ∧
    ((arrayifyPinTrace copyOk y).2 = [] ∨
      (arrayifyPinTrace copyOk y).2 = [.alloc, .free]) ∧
    (∀ u, npTypeOfNet x.elementType = some u →
      (numpyifyPinTrace copyOk x).2 = [.alloc, .free]) ∧
    (∀ t, netTypeOfNp y.dtype = some t →
      (arrayifyPinTrace copyOk y).2 = [.alloc, .free]) := by
  unfold numpyifyPinTrace arrayifyPinTrace
  refine ⟨?_, ?_, ?_, ?_⟩
  · cases h : npTypeOfNet x.elementType <;> cases copyOk <;> simp
  · cases h : netTypeOfNp y.dtype <;> cases copyOk <;> simp
  · intro u hu
    rw [hu]
    cases copyOk <;> simp
  · intro t ht
    rw [ht]
    cases copyOk <;> simp

/-- Witness for C7: with a failing copy, the pin acquired for an `Int32[]`
conversion (either direction) is still freed. -/
theorem pin_released_on_every_path_witness :
    (numpyifyPinTrace false ⟨.int32, [1], [0, 0, 0, 0]⟩).2 =
      [.alloc, .free] ∧
    (arrayifyPinTrace false ⟨.int32, [1], [0, 0, 0, 0]⟩).2 =
      [.alloc, .free] :=
  ⟨(pin_released_on_every_path false ⟨.int32, [1], [0, 0, 0, 0]⟩
      ⟨.int32, [1], [0, 0, 0, 0]⟩).2.2.1 .int32 (by decide),
    (pin_released_on_every_path false ⟨.int32, [1], [0, 0, 0, 0]⟩
      ⟨.int32, [1], [0, 0, 0, 0]⟩).2.2.2 .int32 (by decide)⟩

/-- C2: `__getattr__` on a name without the reserved `_` prefix forwards
to the remote `GetMember`: a remote exception whose message starts with
`"Object has no member"` is re-raised as `AttributeError` with the same
message; any other remote exception is propagated unchanged; a successful
member value is passed through `pyobjify` before being returned. -/
theorem getattr_member_not_found_policy (gm : GetMemberFn)
    (ct : ChangeTypeFn) (name : String)
    (hname : strStartswith name "_" = false) :
    (∀ e : RemoteExn, gm name = .error e →
      (strStartswith e.message "Object has no member" = true →
        pyScriptObjectGetattr gm ct name = .error (.attributeError e.message)) ∧
      (strStartswith e.message "Object has no member" = false →
        pyScriptObjectGetattr gm ct name = .error (.remote e))) ∧
    (∀ v : Value, gm name = .ok v →
      pyScriptObjectGetattr gm ct name = pyobjify ct v) := by
  unfold pyScriptObjectGetattr
  constructor
  · intro e he
    rw [he]
    constructor <;> intro hm <;> simp [hm]
  · intro v hv
    rw [hv]

/-- Witness for C2: a missing member becomes an `AttributeError`, an
unrelated remote exception passes through unchanged, and a present member
comes back `pyobjify`-converted. -/
theorem getattr_member_not_found_policy_witness :
    pyScriptObjectGetattr gmOneMember ctId "Foo" =
      .error (.attributeError ("Object has no member: " ++ "Foo")) ∧
    pyScriptObjectGetattr (fun _ => .error ⟨"Remote access denied", 7⟩) ctId
      "Foo" = .error (.remote ⟨"Remote access denied", 7⟩) ∧
    pyScriptObjectGetattr gmOneMember ctId "Color" =
      .ok (.clrOpaque "System.Drawing.Color" 5) :=
  ⟨((getattr_member_not_found_policy gmOneMember ctId "Foo"
        (by decide)).1 ⟨"Object has no member: " ++ "Foo", 3⟩ rfl).1
      (by decide),
    ((getattr_member_not_found_policy
        (fun _ => .error ⟨"Remote access denied", 7⟩) ctId "Foo"
        (by decide)).1 ⟨"Remote access denied", 7⟩ rfl).2 (by decide),
    (getattr_member_not_found_policy gmOneMember ctId "Color"
        (by decide)).2 (.clrOpaque "System.Drawing.Color" 5) rfl⟩

/-- C3: calling a proxy method with any positional argument raises
`TypeError("Method must be called with named arguments.")` for every
possible remote `Invoke` — i.e. without performing a remote invocation —
whether or not keyword arguments are also given; with keyword arguments
only, every value goes through `clrify`, names and converted values form
two parallel arrays, and the `Invoke` result goes through `pyobjify`. -/
theorem method_call_policy (inv : InvokeFn) (ct : ChangeTypeFn)
    (args : List Value) (kwargs : List (String × Value)) :
    (args ≠ [] →
      pyScriptMethodCall inv ct args kwargs =
        .error (.typeError "Method must be called with named arguments.")) ∧
    (∀ vs, clrifyList (kwargs.map Prod.snd) = .ok vs →
      pyScriptMethodCall inv ct [] kwargs =
        match inv (kwargs.map Prod.fst) vs with
        | .error e => .error (.remote e)
        | .ok r => pyobjify ct r) := by
  constructor
  · intro h
    have hlen : args.length > 0 := List.length_pos.mpr h
    unfold pyScriptMethodCall
    simp [hlen]
  · intro vs hvs
    unfold pyScriptMethodCall
    simp [hvs]
    rfl

/-- Witness for C3: one positional argument (with a keyword argument
present) is rejected; a keyword-only call reaches `Invoke` and its result
is normalized. -/
theorem method_call_policy_witness :
    pyScriptMethodCall invConst ctId [.pyInt 1] [("a", .pyInt 2)] =
      .error (.typeError "Method must be called with named arguments.") ∧
    pyScriptMethodCall invConst ctId [] [("a", .pyInt 2)] =
      .ok (.proxyObj 9) :=
  ⟨(method_call_policy invConst ctId [.pyInt 1] [("a", .pyInt 2)]).1
      (List.cons_ne_nil _ _),
    (method_call_policy invConst ctId [] [("a", .pyInt 2)]).2
      [.pyInt 2] rfl⟩

/-- C5: `systemify` checks the boolean kind first, so a numpy boolean
always boxes to `System.Boolean` (never to an integer type); every numpy
kind outside the table raises with a message naming the concrete type
(`"Unhandled numpy type " + type(src).__name__`). -/
theorem systemify_dispatch (bits : Nat) (t : NpType)
    (ht : t.supported = false) :
    systemify .bool_ bits = .ok (.clrBoxed .boolean bits) ∧
    (∀ u b', systemify .bool_ bits = .ok (.clrBoxed u b') → u = .boolean) ∧
    systemify t bits = .error (.exn ("Unhandled numpy type " ++ t.name)) := by
  refine ⟨rfl, ?_, ?_⟩
  · intro u b' h
    simp [systemify] at h
    exact h.1.symm
  · cases t <;> simp_all [NpType.supported, systemify, NpType.name]

/-- Witness for C5: a boxed numpy boolean converts to `System.Boolean`,
and a `complex64` scalar raises naming its type. -/
theorem systemify_dispatch_witness :
    NpType.supported .complex64 = false ∧
    systemify .bool_ 1 = .ok (.clrBoxed .boolean 1) ∧
    systemify .complex64 0 =
      .error (.exn ("Unhandled numpy type " ++ NpType.name .complex64)) :=
  ⟨rfl, (systemify_dispatch 1 .complex64 rfl).1,
    (systemify_dispatch 0 .complex64 rfl).2.2⟩

/-! ## The array_list fast path (C4) -/

/-- Reduction of a successful `Except` bind (used to evaluate the
`do`-blocks of the normalizer in proofs). -/
theorem exBind_ok {α β : Type} (a : α) (f : α → Except PyErr β) :
    (do let y ← Except.ok a; f y : Except PyErr β) = f a := rfl

/-- `clrify` leaves host-native primitives unchanged. -/
theorem clrify_hostPrim {v : Value} (h : hostPrim v = true) :
    clrify v = .ok v := by
  cases v <;> first | rfl | simp [hostPrim] at h

/-- Python `==` is reflexive on host-native primitives. -/
theorem pyEq_refl_hostPrim {v : Value} (h : hostPrim v = true) :
    pyEq v v = true := by
  cases v
  case pyNone => rfl
  case pyBool b =>
    show (b == b) = true
    simp
  case pyInt n =>
    show (n == n) = true
    simp
  case pyFloat bits =>
    show (bits == bits) = true
    simp
  case pyStr s =>
    show (s == s) = true
    simp
  all_goals revert h
  all_goals simp [hostPrim]

/-- Converting a list of host-native primitives elementwise is the
identity. -/
theorem clrifyList_hostPrim {xs : List Value}
    (h : ∀ v ∈ xs, hostPrim v = true) : clrifyList xs = .ok xs := by
  induction xs with
  | nil => rfl
  | cons x rest ih =>
      have hx := h x (by simp)
      have ih' := ih (fun v hv => h v (by simp [hv]))
      simp [clrifyList, clrify_hostPrim hx, ih']
      rfl

/-- C4: on an `array_list` whose elements are all host-native primitives
(so converting the first element leaves it unchanged), the fast path taken
by `clrify` produces the remote object array with exactly the original
elements, the forced per-element slow path produces the same array, and
the two are therefore observationally equal. -/
theorem array_list_fast_path_equiv (xs : List Value)
    (h : ∀ v ∈ xs, hostPrim v = true) :
    clrify (.pyArrayList xs) = .ok (.netObjArr xs) ∧
    arrayListSlowPath xs = .ok (.netObjArr xs) ∧
    clrify (.pyArrayList xs) = arrayListSlowPath xs := by
  have hslow : arrayListSlowPath xs = .ok (.netObjArr xs) := by
    simp [arrayListSlowPath, clrifyList_hostPrim h]
    rfl
  have hfast : clrify (.pyArrayList xs) = .ok (.netObjArr xs) := by
    cases xs with
    | nil => rfl
    | cons x0 rest =>
        have h0 := h x0 (by simp)
        simp [clrify, clrify_hostPrim h0, exBind_ok, pyEq_refl_hostPrim h0]
  exact ⟨hfast, hslow, hfast.trans hslow.symm⟩

/-- Witness for C4: a small list of primitive host values (the fast path
and the forced slow path produce the same remote object array). -/
theorem array_list_fast_path_equiv_witness :
    clrify (.pyArrayList [.pyInt 1, .pyStr "a", .pyBool true]) =
      .ok (.netObjArr [.pyInt 1, .pyStr "a", .pyBool true]) ∧
    arrayListSlowPath [.pyInt 1, .pyStr "a", .pyBool true] =
      .ok (.netObjArr [.pyInt 1, .pyStr "a", .pyBool true]) :=
  ⟨(array_list_fast_path_equiv [.pyInt 1, .pyStr "a", .pyBool true]
      (by decide)).1,
    (array_list_fast_path_equiv [.pyInt 1, .pyStr "a", .pyBool true]
      (by decide)).2.1⟩

/-! ## sorted_dict (C8) and array_list construction (C10) -/

/-- C8: constructing a `sorted_dict` with both an explicit key type and
(truthy) pre-existing data raises the usage `ValueError`; and on a
`sorted_dict` with declared key type, `__setitem__` stores the inserted
key coerced through `System.Convert.ChangeType(key, key_type)`. -/
theorem sorted_dict_contract (ct : ChangeTypeFn) (d : Value) (kt : NetType)
    (hd : pyTruthy d = true) (sd : SortedDict) (k v ck : Value)
    (hck : ct k sd.key_type = .ok ck) :
    sortedDictInit ct (some d) (some kt) =
      .error (.valueError
        ("The key_type input argument can only be specified when no " ++
          "other input arguments are given.")) ∧
    sortedDictSetItem ct sd k v =
      .ok ⟨sd.key_type, dictSet sd.entries ck v⟩ := by
  constructor
  · simp [sortedDictInit, hd]
  · simp [sortedDictSetItem, hck]
    rfl

/-- Witness for C8: `sorted_dict(d, key_type=Double)` with a non-empty
dict raises; inserting an integer key into a `key_type=Double` dict stores
the `ChangeType`-coerced (boxed double) key. -/
theorem sorted_dict_contract_witness :
    sortedDictInit ctBox (some (.pyDict [(.pyInt 1, .pyInt 2)]))
      (some .double) =
      .error (.valueError
        ("The key_type input argument can only be specified when no " ++
          "other input arguments are given.")) ∧
    sortedDictSetItem ctBox ⟨.double, []⟩ (.pyInt 3) (.pyStr "x") =
      .ok ⟨.double, [(.clrBoxed .double 0, .pyStr "x")]⟩ :=
  sorted_dict_contract ctBox (.pyDict [(.pyInt 1, .pyInt 2)]) .double rfl
    ⟨.double, []⟩ (.pyInt 3) (.pyStr "x") (.clrBoxed .double 0) rfl

/-- C10: `array_list()` with the list argument absent or `None` does not
produce an empty `array_list`: the `l == None` branch calls
`dict.__init__` on an instance that is a `list` subclass, which raises
`TypeError`. -/
theorem array_list_none_ctor (ct : ChangeTypeFn) (p : Bool) :
    arrayListInit ct none p = .error (.typeError dictInitTypeErrorMsg) := rfl

/-! ## Collection iteration (C9) -/

/-- Running the iterator from index `i` yields exactly the elements
obtained by indexing the collection at `i, i+1, …, count-1`. -/
theorem iterRun_eq_mapM (ct : ChangeTypeFn) (c : PyCollection) :
    ∀ k i, collLen c - i = k →
      iterRun ct ⟨c, i⟩ = (List.range' i k).mapM (collGetItem ct c) := by
  intro k
  induction k with
  | zero =>
      intro i hi
      have hge : ¬ i < collLen c := by omega
      unfold iterRun
      rw [dif_neg hge]
      rfl
  | succ k ih =>
      intro i hi
      have hlt : i < collLen c := by omega
      unfold iterRun
      rw [dif_pos hlt, List.range'_succ, List.mapM_cons,
        ih (i + 1) (by omega)]
      rfl

/-- C9: iteration over a proxy collection is index-based and finite —
`__iter__` always returns a fresh iterator at index 0; `__next__` stops
exactly when the index reaches the length and otherwise yields
`collection[index]`, which is the remote element at that index passed
through `pyobjify`; and a full run of a fresh iterator equals indexing the
collection at `0 … length-1` in order. -/
theorem collection_iteration (ct : ChangeTypeFn) (c : PyCollection) :
    collIter c = ⟨c, 0⟩ ∧
    (∀ i, collGetItem ct c i = pyobjify ct (c.rc.getIdx i)) ∧
    (∀ i, collLen c ≤ i → iterNext ct ⟨c, i⟩ = .ok none) ∧
    (∀ i, i < collLen c →
      iterNext ct ⟨c, i⟩ =
        match collGetItem ct c i with
        | .error e => .error e
        | .ok v => .ok (some (v, ⟨c, i + 1⟩))) ∧
    iterRun ct (collIter c) =
      (List.range (collLen c)).mapM (collGetItem ct c) := by
  refine ⟨rfl, fun i => rfl, ?_, ?_, ?_⟩
  · intro i hi
    unfold iterNext
    rw [if_pos hi]
  · intro i hi
    have hn : ¬ (collLen c ≤ i) := by omega
    unfold iterNext
    rw [if_neg hn]
    cases h : collGetItem ct c i <;> rfl
  · rw [List.range_eq_range']
    exact iterRun_eq_mapM ct c (collLen c) 0 (by omega)

/-- Witness for C9: a concrete two-element remote collection of script
objects: the fresh iterator starts at 0, the first `__next__` yields
`collection[0]` (a `pyobjify`-wrapped proxy object) and advances to index
1, and `__next__` at index 2 stops the iteration. -/
theorem collection_iteration_witness :
    iterNext ctId ⟨⟨⟨2, fun i => .clrObj i⟩⟩, 0⟩ =
      .ok (some (.proxyObj 0, ⟨⟨⟨2, fun i => .clrObj i⟩⟩, 1⟩)) ∧
    iterNext ctId ⟨⟨⟨2, fun i => .clrObj i⟩⟩, 2⟩ = .ok none :=
  ⟨((collection_iteration ctId ⟨⟨2, fun i => .clrObj i⟩⟩).2.2.2.1 0
      (by decide)).trans rfl,
    (collection_iteration ctId ⟨⟨2, fun i => .clrObj i⟩⟩).2.2.1 2
      (by decide)⟩

end RSClient
